import Mathlib

/-!
Shallow embedding of `src/front/script.js` (voice-controlled elevator
floor selection) and proofs of the specification's claims about it.

The source is browser JavaScript wired to DOM events.  The embedding
models the module-level mutable state (`mediaRecorder`, `audioChunks`,
`isListening`, the `selectedFloor` div and the button) as an explicit
controller-state record, and every externally observable side effect
(speech synthesis, the HTTP POST, the console log, recorder start/stop)
as an element of an effect trace.  JSON response bodies are modelled by
an inductive `Json` type with JavaScript truthiness; property access on
a parsed body is modelled faithfully to JavaScript: reading a property
of `null` throws a TypeError (caught by the surrounding `try`), while
reading a missing property of any other value yields `undefined`
(modelled as `none`).

Scheduling follows the spec's cooperative single-threaded model (§5):
the events of one session (start click, data fragments, stop click,
recorder onstop, fetch settlement, response processing) are processed
to completion before the next session begins.
-/

/-- One binary audio fragment delivered by the capture device
(`event.data` in `ondataavailable`), modelled as its byte sequence. -/
abbrev Chunk := List Nat

/-- JSON values, the possible results of `response.json()`. -/
inductive Json where
  | null : Json
  | bool : Bool → Json
  | num : Int → Json
  | str : String → Json
  | arr : List Json → Json
  | obj : List (String × Json) → Json

/-- JavaScript truthiness of a JSON value (`if (result.floor)`,
`result.message || …`): `null`, `false`, `0` and `""` are falsy,
everything else (including any array or object) is truthy. -/
def truthyVal : Json → Bool
  | Json.null => false
  | Json.bool b => b
  | Json.num n => n != 0
  | Json.str s => s != ""
  | Json.arr _ => true
  | Json.obj _ => true

/-- Truthiness of an optional value: a missing property (`undefined`)
is falsy. -/
def truthy : Option Json → Bool
  | none => false
  | some v => truthyVal v

/-- Last-match field lookup in a JSON object, mirroring `JSON.parse`
semantics where a duplicated key keeps the last occurrence. -/
def lookupField : List (String × Json) → String → Option Json
  | [], _ => none
  | (k, v) :: rest, key =>
    match lookupField rest key with
    | some r => some r
    | none => if k == key then some v else none

/-- The message of the TypeError thrown by reading a property of
`null` (text as produced by V8; only its existence matters here). -/
def nullReadMessage (key : String) : String :=
  "Cannot read properties of null (reading '" ++ key ++ "')"

/-- JavaScript property read `value.key`: throws a TypeError on `null`,
returns the field on an object (`none` when absent), and `undefined`
(`none`) on any other non-null value. -/
def jsGetProp : Json → String → Except String (Option Json)
  | Json.null, key => Except.error (nullReadMessage key)
  | Json.obj fields, key => Except.ok (lookupField fields key)
  | _, _ => Except.ok none

mutual

/-- JavaScript `String(v)` conversion, as used by the template literals
and by `SpeechSynthesisUtterance`. -/
def jsToString : Json → String
  | Json.null => "null"
  | Json.bool true => "true"
  | Json.bool false => "false"
  | Json.num n => toString n
  | Json.str s => s
  | Json.arr xs => jsArrToString xs
  | Json.obj _ => "[object Object]"

/-- `Array.prototype.toString`: elements joined by commas, with `null`
elements rendered as the empty string. -/
def jsArrToString : List Json → String
  | [] => ""
  | [Json.null] => ""
  | [x] => jsToString x
  | Json.null :: y :: xs => "," ++ jsArrToString (y :: xs)
  | x :: y :: xs => jsToString x ++ "," ++ jsArrToString (y :: xs)

end

/-- `o || fallback` followed by stringification: the spoken text of
`speak(result.message || 'No valid floor number recognized.')`. -/
def jsOrString (o : Option Json) (fallback : String) : String :=
  match o with
  | some v => if truthyVal v then jsToString v else fallback
  | none => fallback

/-- State of the DOM elements the script mutates: the `selectedFloor`
div (text and `aria-label`) and the toggle button (text and
`aria-pressed`). -/
structure DOMState where
  selectedFloorText : String
  selectedFloorAria : String
  buttonText : String
  ariaPressed : String
deriving DecidableEq, Repr

/-- The module-level mutable state of the script: the DOM, the
`audioChunks` buffer, whether a `mediaRecorder` object exists, and the
`isListening` flag. -/
structure CtrlState where
  dom : DOMState
  audioChunks : List Chunk
  hasRecorder : Bool
  isListening : Bool
deriving DecidableEq, Repr

/-- Externally observable side effects, in order of occurrence. -/
inductive Effect where
  | speak : String → Effect
  | recorderStart : Effect
  | recorderStop : Effect
  | httpPost : (method url field filename mime : String) →
      (payload : List Nat) → Effect
  | consoleLog : String → Effect
deriving DecidableEq, Repr

/-- Outcome of the `fetch` call for one session: either the promise
rejects (network failure), or a response arrives whose body either
fails to parse as JSON or parses to a `Json` value.  The HTTP status
code is carried but — as the claims probe — never inspected. -/
inductive FetchOutcome where
  | netError : String → FetchOutcome
  | response : Nat → Except String Json → FetchOutcome

/-- The spec's abstract session phases (§4.1). The correspondence to
the code: Listening = `isListening == true` (recorder running);
Finalizing = after the stop click, before the recorder's `onstop`
fires; Transcribing = the `fetch` is in flight; Announcing = the
response (or error) is being interpreted; Idle = everything else. -/
inductive Phase where
  | Idle | Listening | Finalizing | Transcribing | Announcing
deriving DecidableEq, Repr

/-- The five phases, each once. -/
def allPhases : List Phase :=
  [Phase.Idle, Phase.Listening, Phase.Finalizing, Phase.Transcribing,
   Phase.Announcing]

/-- `selectFloor(floor)`: update the display div and its aria label,
speak the confirmation, log the simulated Bluetooth command. -/
def selectFloor (s : CtrlState) (floor : Json) : CtrlState × List Effect :=
  ({ s with
      dom := { s.dom with
                selectedFloorText := "Selected: Floor " ++ jsToString floor
                selectedFloorAria := "Selected floor: " ++ jsToString floor } },
   [Effect.speak ("Selected floor " ++ jsToString floor),
    Effect.consoleLog ("Simulated Bluetooth command: FLOOR:" ++ jsToString floor)])

/-- `sendAudioToAPI(audioBlob)`: build the form data, POST it, then
interpret the settlement.  The `Effect.httpPost` is emitted in every
branch because `fetch` is invoked before any of them is known; network
rejection and JSON-parse rejection both land in the `catch` block, as
does the TypeError from `result.floor` when the body is `null`. -/
def sendAudioToAPI (s : CtrlState) (blob : List Nat)
    (outcome : FetchOutcome) : CtrlState × List Effect :=
  let post := Effect.httpPost "POST" "http://127.0.0.1:8000/transcribe"
      "file" "audio.webm" "audio/webm" blob
  match outcome with
  | FetchOutcome.netError msg =>
      (s, [post, Effect.speak ("Error processing voice input: " ++ msg)])
  | FetchOutcome.response _status body =>
    match body with
    | Except.error msg =>
        (s, [post, Effect.speak ("Error processing voice input: " ++ msg)])
    | Except.ok result =>
      match jsGetProp result "floor" with
      | Except.error msg =>
          (s, [post, Effect.speak ("Error processing voice input: " ++ msg)])
      | Except.ok floorProp =>
        if truthy floorProp then
          match floorProp with
          | some fl =>
            let r := selectFloor s fl
            (r.1, post :: r.2)
          | none => (s, [post])
        else
          match jsGetProp result "message" with
          | Except.error msg =>
              (s, [post, Effect.speak ("Error processing voice input: " ++ msg)])
          | Except.ok msgProp =>
              (s, [post,
                   Effect.speak (jsOrString msgProp "No valid floor number recognized.")])

/-- The click handler.  `acquire` is the result `getUserMedia` would
deliver; it is consulted only in the start branch. -/
def handleClick (s : CtrlState) (acquire : Except String Unit) :
    CtrlState × List Effect :=
  if s.isListening then
    ({ s with
        isListening := false
        dom := { s.dom with
                  buttonText := "Start Voice Input"
                  ariaPressed := "false" } },
     [Effect.recorderStop, Effect.speak "Voice input stopped."])
  else
    match acquire with
    | Except.ok _ =>
      ({ s with
          hasRecorder := true
          audioChunks := []
          isListening := true
          dom := { s.dom with
                    buttonText := "Stop Listening"
                    ariaPressed := "true" } },
       [Effect.recorderStart, Effect.speak "Please say the floor number."])
    | Except.error msg =>
      (s, [Effect.speak ("Error accessing microphone: " ++ msg)])

/-- `ondataavailable`: push the fragment onto `audioChunks`. -/
def handleData (s : CtrlState) (c : Chunk) : CtrlState :=
  { s with audioChunks := s.audioChunks ++ [c] }

/-- The environment of one session: the `getUserMedia` result, the
fragments the device delivers while listening, and the fetch
settlement. -/
structure SessionEnv where
  acquire : Except String Unit
  fragments : List Chunk
  outcome : FetchOutcome

/-- Whether the session's device acquisition succeeds. -/
def SessionEnv.acquireOk (env : SessionEnv) : Bool :=
  match env.acquire with
  | Except.ok _ => true
  | Except.error _ => false

/-- One complete session under the cooperative scheduling model: the
start click; if acquisition succeeded, the data fragments in arrival
order, the stop click, the recorder's `onstop` (which snapshots
`audioChunks` into a Blob) and `sendAudioToAPI`.  Returns the final
state, the effect trace, and the sequence of non-Idle spec phases the
controller passes through (ending with the return to Idle). -/
def runSession (s : CtrlState) (env : SessionEnv) :
    CtrlState × List Effect × List Phase :=
  let r1 := handleClick s env.acquire
  if r1.1.isListening then
    let s2 := env.fragments.foldl handleData r1.1
    let r3 := handleClick s2 env.acquire
    let blob := r3.1.audioChunks.flatten
    let r4 := sendAudioToAPI r3.1 blob env.outcome
    (r4.1, r1.2 ++ r3.2 ++ r4.2,
     [Phase.Listening, Phase.Finalizing, Phase.Transcribing,
      Phase.Announcing, Phase.Idle])
  else
    (r1.1, r1.2, [])

/-- A sequence of sessions run back to back (each one completing before
the next starts, per the spec's single-session model). -/
def runSessions (s : CtrlState) : List SessionEnv →
    CtrlState × List Effect × List Phase
  | [] => (s, [], [])
  | env :: rest =>
    let r := runSession s env
    let r2 := runSessions r.1 rest
    (r2.1, r.2.1 ++ r2.2.1, r.2.2 ++ r2.2.2)

/-- The payloads of the HTTP POST effects of a trace, in order. -/
def postedPayloads (effs : List Effect) : List (List Nat) :=
  effs.filterMap fun e =>
    match e with
    | Effect.httpPost _ _ _ _ _ p => some p
    | _ => none

/-- The spoken texts of a trace, in order. -/
def spokenTexts (effs : List Effect) : List String :=
  effs.filterMap fun e =>
    match e with
    | Effect.speak t => some t
    | _ => none

/-- Whether the string `sub` occurs contiguously inside `t`. -/
def strContains (t sub : String) : Bool :=
  decide (sub.data <:+: t.data)

/-- Whether an effect is a console-log line containing `sub`. -/
def Effect.isLogContaining (sub : String) : Effect → Bool
  | Effect.consoleLog t => strContains t sub
  | _ => false

/-- Whether an effect is a console log at all. -/
def Effect.isConsoleLog : Effect → Bool
  | Effect.consoleLog _ => true
  | _ => false

/-- Whether a session outcome counts as successful floor recognition
(the condition under which `selectFloor` runs). -/
def floorRecognized : FetchOutcome → Bool
  | FetchOutcome.response _ (Except.ok j) =>
    match jsGetProp j "floor" with
    | Except.ok o => truthy o
    | Except.error _ => false
  | _ => false

/-- Whether an effect is the HTTP POST. -/
def Effect.isHttpPost : Effect → Bool
  | Effect.httpPost _ _ _ _ _ _ => true
  | _ => false

/-- The controller state right after the stop click of a session that
started from `s` and accumulated `frags`: recorder exists, the buffer
holds the session's fragments, listening is off, button reset. -/
def postStopState (s : CtrlState) (frags : List Chunk) : CtrlState :=
  { s with
      hasRecorder := true
      audioChunks := frags
      isListening := false
      dom := { s.dom with
                buttonText := "Start Voice Input"
                ariaPressed := "false" } }

theorem foldl_handleData (frags : List Chunk) (s : CtrlState) :
    frags.foldl handleData s = { s with audioChunks := s.audioChunks ++ frags } := by
  induction frags generalizing s with
  | nil => simp
  | cons c cs ih =>
    rw [List.foldl_cons, ih]
    simp [handleData]

theorem runSession_acquire_ok (s : CtrlState) (env : SessionEnv)
    (hs : s.isListening = false) (hok : env.acquire = Except.ok ()) :
    runSession s env =
      ((sendAudioToAPI (postStopState s env.fragments)
          env.fragments.flatten env.outcome).1,
       Effect.recorderStart :: Effect.speak "Please say the floor number." ::
         Effect.recorderStop :: Effect.speak "Voice input stopped." ::
         (sendAudioToAPI (postStopState s env.fragments)
            env.fragments.flatten env.outcome).2,
       [Phase.Listening, Phase.Finalizing, Phase.Transcribing,
        Phase.Announcing, Phase.Idle]) := by
  simp [runSession, handleClick, hs, hok, foldl_handleData, postStopState]

theorem runSession_acquire_err (s : CtrlState) (env : SessionEnv)
    (msg : String) (hs : s.isListening = false)
    (herr : env.acquire = Except.error msg) :
    runSession s env =
      (s, [Effect.speak ("Error accessing microphone: " ++ msg)], []) := by
  simp [runSession, handleClick, hs, herr]

theorem sendAudio_state_unchanged (s : CtrlState) (b : List Nat)
    (o : FetchOutcome) (h : floorRecognized o = false) :
    (sendAudioToAPI s b o).1 = s := by
  cases o with
  | netError m => rfl
  | response st body =>
    cases body with
    | error m => rfl
    | ok j =>
      cases hj : jsGetProp j "floor" with
      | error m => simp [sendAudioToAPI, hj]
      | ok fp =>
        simp [floorRecognized, hj] at h
        cases jm : jsGetProp j "message" with
        | error m => simp [sendAudioToAPI, hj, h, jm]
        | ok mp => simp [sendAudioToAPI, hj, h, jm]

theorem sendAudio_effects (s : CtrlState) (b : List Nat) (o : FetchOutcome) :
    ∃ t, (sendAudioToAPI s b o).2 =
        Effect.httpPost "POST" "http://127.0.0.1:8000/transcribe" "file"
          "audio.webm" "audio/webm" b :: t ∧
      ∀ e ∈ t, Effect.isHttpPost e = false := by
  cases o with
  | netError m => exact ⟨_, rfl, by simp [Effect.isHttpPost]⟩
  | response st body =>
    cases body with
    | error m => exact ⟨_, rfl, by simp [Effect.isHttpPost]⟩
    | ok j =>
      cases hj : jsGetProp j "floor" with
      | error m =>
        refine ⟨[Effect.speak ("Error processing voice input: " ++ m)], ?_, ?_⟩
        · simp [sendAudioToAPI, hj]
        · simp [Effect.isHttpPost]
      | ok fp =>
        cases ht : truthy fp with
        | true =>
          cases fp with
          | none => simp [truthy] at ht
          | some fl =>
            refine ⟨[Effect.speak ("Selected floor " ++ jsToString fl),
                Effect.consoleLog
                  ("Simulated Bluetooth command: FLOOR:" ++ jsToString fl)],
              ?_, ?_⟩
            · simp [sendAudioToAPI, hj, ht, selectFloor]
            · simp [Effect.isHttpPost]
        | false =>
          cases jm : jsGetProp j "message" with
          | error m =>
            refine ⟨[Effect.speak ("Error processing voice input: " ++ m)], ?_, ?_⟩
            · simp [sendAudioToAPI, hj, ht, jm]
            · simp [Effect.isHttpPost]
          | ok mp =>
            refine ⟨[Effect.speak
                (jsOrString mp "No valid floor number recognized.")], ?_, ?_⟩
            · simp [sendAudioToAPI, hj, ht, jm]
            · simp [Effect.isHttpPost]

theorem sendAudio_isListening (s : CtrlState) (b : List Nat)
    (o : FetchOutcome) : (sendAudioToAPI s b o).1.isListening = s.isListening := by
  cases o with
  | netError m => rfl
  | response st body =>
    cases body with
    | error m => rfl
    | ok j =>
      cases hj : jsGetProp j "floor" with
      | error m => simp [sendAudioToAPI, hj]
      | ok fp =>
        cases ht : truthy fp with
        | true =>
          cases fp with
          | none => simp [truthy] at ht
          | some fl => simp [sendAudioToAPI, hj, ht, selectFloor]
        | false =>
          cases jm : jsGetProp j "message" with
          | error m => simp [sendAudioToAPI, hj, ht, jm]
          | ok mp => simp [sendAudioToAPI, hj, ht, jm]

theorem runSession_isListening (s : CtrlState) (env : SessionEnv)
    (hs : s.isListening = false) :
    (runSession s env).1.isListening = false := by
  cases ha : env.acquire with
  | error m => rw [runSession_acquire_err s env m hs ha]; exact hs
  | ok u =>
    cases u
    rw [runSession_acquire_ok s env hs ha]
    rw [sendAudio_isListening]
    rfl

theorem runSession_payloads (s : CtrlState) (env : SessionEnv)
    (hs : s.isListening = false) :
    postedPayloads (runSession s env).2.1 =
      if env.acquireOk then [env.fragments.flatten] else [] := by
  cases ha : env.acquire with
  | error m =>
    rw [runSession_acquire_err s env m hs ha]
    simp [postedPayloads, SessionEnv.acquireOk, ha]
  | ok u =>
    cases u
    rw [runSession_acquire_ok s env hs ha]
    obtain ⟨t, ht, hnp⟩ :=
      sendAudio_effects (postStopState s env.fragments) env.fragments.flatten env.outcome
    rw [ht]
    simp only [postedPayloads, List.filterMap_cons, SessionEnv.acquireOk, ha, if_pos]
    have : t.filterMap (fun e =>
        match e with
        | Effect.httpPost _ _ _ _ _ p => some p
        | _ => none) = [] := by
      rw [List.filterMap_eq_nil_iff]
      intro e he
      have hfe := hnp e he
      cases e <;> simp_all [Effect.isHttpPost]
    simp [this]

/-- A concrete initial controller state used by the witnesses. -/
def sampleState : CtrlState :=
  { dom := { selectedFloorText := "", selectedFloorAria := "",
             buttonText := "Start Voice Input", ariaPressed := "false" },
    audioChunks := [], hasRecorder := false, isListening := false }

/-- A concrete successful session environment: two fragments, the
collaborator answers with floor "5". -/
def sampleEnvFloor5 : SessionEnv :=
  { acquire := Except.ok (), fragments := [[1, 2], [3]],
    outcome := FetchOutcome.response 200
      (Except.ok (Json.obj [("floor", Json.str "5")])) }

/-- C1: a session whose transcription response is a JSON object whose
`floor` field is the string "5" sets the display text to
"Selected: Floor 5", speaks "Selected floor 5" exactly once, and emits
exactly one simulated command log line containing "5". -/
theorem claim_C1 (s : CtrlState) (env : SessionEnv) (st : Nat)
    (fields : List (String × Json))
    (hs : s.isListening = false) (hok : env.acquire = Except.ok ())
    (hbody : env.outcome =
      FetchOutcome.response st (Except.ok (Json.obj fields)))
    (hfloor : lookupField fields "floor" = some (Json.str "5")) :
    (runSession s env).1.dom.selectedFloorText = "Selected: Floor 5" ∧
    (spokenTexts (runSession s env).2.1).count "Selected floor 5" = 1 ∧
    ((runSession s env).2.1.filter (Effect.isLogContaining "5")).length = 1 := by
  rw [runSession_acquire_ok s env hs hok, hbody]
  simp [sendAudioToAPI, jsGetProp, hfloor, truthy, truthyVal, selectFloor,
    jsToString, spokenTexts, Effect.isLogContaining, postStopState]
  decide

/-- C1 witness: the property at a concrete session. -/
theorem claim_C1_witness :
    (runSession sampleState sampleEnvFloor5).1.dom.selectedFloorText =
      "Selected: Floor 5" ∧
    (spokenTexts (runSession sampleState sampleEnvFloor5).2.1).count
      "Selected floor 5" = 1 ∧
    ((runSession sampleState sampleEnvFloor5).2.1.filter
      (Effect.isLogContaining "5")).length = 1 :=
  claim_C1 sampleState sampleEnvFloor5 200 [("floor", Json.str "5")]
    rfl rfl rfl rfl

/-- C2: across any sequence of sessions, the payloads submitted to the
transcription collaborator are, in order, exactly the flattenings (in
arrival order) of the fragments of each session whose acquisition
succeeded — so each payload holds its own session's fragments and no
other's. -/
theorem claim_C2 (s : CtrlState) (hs : s.isListening = false)
    (envs : List SessionEnv) :
    postedPayloads (runSessions s envs).2.1 =
      (envs.filter (fun env => env.acquireOk)).map
        (fun env => env.fragments.flatten) := by
  induction envs generalizing s with
  | nil => rfl
  | cons env rest ih =>
    have hinv := runSession_isListening s env hs
    simp only [runSessions, postedPayloads, List.filterMap_append]
    have h1 := runSession_payloads s env hs
    have h2 := ih (runSession s env).1 hinv
    simp only [postedPayloads] at h1 h2
    rw [h1, h2]
    cases hok : env.acquireOk <;> simp [List.filter_cons, hok]

/-- C2 witness: at a concrete pair of sessions the two payloads are the
flattened fragments of each. -/
theorem claim_C2_witness :
    postedPayloads (runSessions sampleState
        [sampleEnvFloor5,
         { sampleEnvFloor5 with fragments := [[9]] }]).2.1 =
      [[1, 2, 3], [9]] := by
  have h := claim_C2 sampleState rfl
    [sampleEnvFloor5, { sampleEnvFloor5 with fragments := [[9]] }]
  rw [h]
  decide

/-- C3: along any sequence of sessions the controller is, at every
point of the phase trace, in exactly one of the five spec phases; and
every stop issued while Listening drives the machine through
Finalizing, Transcribing and Announcing back to Idle exactly once. -/
theorem claim_C3 (s : CtrlState) (hs : s.isListening = false)
    (envs : List SessionEnv) :
    (∀ p ∈ Phase.Idle :: (runSessions s envs).2.2, allPhases.count p = 1) ∧
    (∀ env : SessionEnv, ∀ s' : CtrlState, s'.isListening = false →
      env.acquireOk = true →
        (runSession s' env).2.2 =
          [Phase.Listening, Phase.Finalizing, Phase.Transcribing,
           Phase.Announcing, Phase.Idle] ∧
        ((runSession s' env).2.2).count Phase.Idle = 1) := by
  constructor
  · intro p _
    cases p <;> decide
  · intro env s' hs' hok
    obtain ⟨u, hu⟩ : ∃ u, env.acquire = Except.ok u := by
      cases h : env.acquire with
      | ok u => exact ⟨u, rfl⟩
      | error m => simp [SessionEnv.acquireOk, h] at hok
    cases u
    rw [runSession_acquire_ok s' env hs' hu]
    exact ⟨rfl, rfl⟩

/-- C3 witness: the phase trace of a concrete session returns to Idle
exactly once. -/
theorem claim_C3_witness :
    (runSession sampleState sampleEnvFloor5).2.2 =
      [Phase.Listening, Phase.Finalizing, Phase.Transcribing,
       Phase.Announcing, Phase.Idle] ∧
    ((runSession sampleState sampleEnvFloor5).2.2).count Phase.Idle = 1 :=
  (claim_C3 sampleState rfl [sampleEnvFloor5]).2 sampleEnvFloor5
    sampleState rfl rfl

/-- C4: when device acquisition fails, the state is unchanged (the
machine never leaves Idle, the phase trace is empty), exactly one
message containing the failure reason is spoken, and no HTTP request is
made. -/
theorem claim_C4 (s : CtrlState) (env : SessionEnv) (msg : String)
    (hs : s.isListening = false) (herr : env.acquire = Except.error msg) :
    (runSession s env).1 = s ∧
    (runSession s env).2.2 = [] ∧
    spokenTexts (runSession s env).2.1 =
      ["Error accessing microphone: " ++ msg] ∧
    strContains ("Error accessing microphone: " ++ msg) msg = true ∧
    postedPayloads (runSession s env).2.1 = [] := by
  rw [runSession_acquire_err s env msg hs herr]
  refine ⟨rfl, rfl, rfl, ?_, rfl⟩
  unfold strContains
  rw [decide_eq_true_eq]
  have hdata : ("Error accessing microphone: " ++ msg).data =
      ("Error accessing microphone: ").data ++ msg.data := by simp
  rw [hdata]
  exact (List.suffix_append _ _).isInfix

/-- C4 witness: the property at the "Permission denied" scenario. -/
theorem claim_C4_witness :
    (runSession sampleState
        { sampleEnvFloor5 with acquire := Except.error "Permission denied" }).1 =
      sampleState ∧
    (runSession sampleState
        { sampleEnvFloor5 with acquire := Except.error "Permission denied" }).2.2 = [] ∧
    spokenTexts (runSession sampleState
        { sampleEnvFloor5 with acquire := Except.error "Permission denied" }).2.1 =
      ["Error accessing microphone: " ++ "Permission denied"] ∧
    strContains ("Error accessing microphone: " ++ "Permission denied")
      "Permission denied" = true ∧
    postedPayloads (runSession sampleState
        { sampleEnvFloor5 with acquire := Except.error "Permission denied" }).2.1 = [] :=
  claim_C4 sampleState
    { sampleEnvFloor5 with acquire := Except.error "Permission denied" }
    "Permission denied" rfl rfl

/-- C7: every session whose acquisition succeeded makes exactly one
HTTP request: a POST to http://127.0.0.1:8000/transcribe with one
binary field named "file", filename audio.webm, content type
audio/webm, holding the assembled payload. -/
theorem claim_C7 (s : CtrlState) (env : SessionEnv)
    (hs : s.isListening = false) (hok : env.acquire = Except.ok ()) :
    (runSession s env).2.1.filter Effect.isHttpPost =
      [Effect.httpPost "POST" "http://127.0.0.1:8000/transcribe" "file"
        "audio.webm" "audio/webm" env.fragments.flatten] := by
  rw [runSession_acquire_ok s env hs hok]
  obtain ⟨t, ht, hnp⟩ :=
    sendAudio_effects (postStopState s env.fragments)
      env.fragments.flatten env.outcome
  rw [ht]
  simp only [List.filter_cons]
  have hts : t.filter Effect.isHttpPost = [] := by
    rw [List.filter_eq_nil_iff]
    intro e he
    simp [hnp e he]
  simp [Effect.isHttpPost, hts]

/-- C7 witness: the single POST of a concrete session. -/
theorem claim_C7_witness :
    (runSession sampleState sampleEnvFloor5).2.1.filter Effect.isHttpPost =
      [Effect.httpPost "POST" "http://127.0.0.1:8000/transcribe" "file"
        "audio.webm" "audio/webm" [1, 2, 3]] := by
  have h := claim_C7 sampleState sampleEnvFloor5 rfl rfl
  simpa using h

/-- C5: when the transcription request fails (network error) or its
body is not parsable, the final announcement is the generic
processing-error message, the display region is untouched, exactly one
request was made (no retry), and the machine ends back at Idle. -/
theorem claim_C5 (s : CtrlState) (env : SessionEnv) (msg : String)
    (hs : s.isListening = false) (hok : env.acquire = Except.ok ())
    (hfail : env.outcome = FetchOutcome.netError msg ∨
      ∃ st, env.outcome = FetchOutcome.response st (Except.error msg)) :
    (spokenTexts (runSession s env).2.1).getLast? =
      some ("Error processing voice input: " ++ msg) ∧
    (runSession s env).1.dom.selectedFloorText = s.dom.selectedFloorText ∧
    (runSession s env).1.dom.selectedFloorAria = s.dom.selectedFloorAria ∧
    postedPayloads (runSession s env).2.1 = [env.fragments.flatten] ∧
    ((runSession s env).2.2).getLast? = some Phase.Idle := by
  rcases hfail with h | ⟨st, h⟩
  · rw [runSession_acquire_ok s env hs hok, h]
    exact ⟨rfl, rfl, rfl, rfl, rfl⟩
  · rw [runSession_acquire_ok s env hs hok, h]
    exact ⟨rfl, rfl, rfl, rfl, rfl⟩

/-- C5 witness: a concrete rejected fetch. -/
theorem claim_C5_witness :
    (spokenTexts (runSession sampleState
        { sampleEnvFloor5 with
            outcome := FetchOutcome.netError "Failed to fetch" }).2.1).getLast? =
      some ("Error processing voice input: " ++ "Failed to fetch") ∧
    (runSession sampleState
        { sampleEnvFloor5 with
            outcome := FetchOutcome.netError "Failed to fetch" }).1.dom.selectedFloorText =
      sampleState.dom.selectedFloorText ∧
    (runSession sampleState
        { sampleEnvFloor5 with
            outcome := FetchOutcome.netError "Failed to fetch" }).1.dom.selectedFloorAria =
      sampleState.dom.selectedFloorAria ∧
    postedPayloads (runSession sampleState
        { sampleEnvFloor5 with
            outcome := FetchOutcome.netError "Failed to fetch" }).2.1 = [[1, 2, 3]] ∧
    ((runSession sampleState
        { sampleEnvFloor5 with
            outcome := FetchOutcome.netError "Failed to fetch" }).2.2).getLast? =
      some Phase.Idle :=
  claim_C5 sampleState
    { sampleEnvFloor5 with outcome := FetchOutcome.netError "Failed to fetch" }
    "Failed to fetch" rfl rfl (Or.inl rfl)

/-- A response object whose `message` field is present but the empty
string: the claim C6 as frozen says the server-provided message is
spoken whenever present, but the code tests truthiness, so the empty
string falls through to the generic fallback. -/
def envMsgEmpty : SessionEnv :=
  { acquire := Except.ok (), fragments := [],
    outcome := FetchOutcome.response 200
      (Except.ok (Json.obj [("message", Json.str "")])) }

/-- C6 counterexample: the `message` field is present (the empty
string), yet the empty string is never spoken — the generic fallback is
spoken instead, refuting "speaks the server-provided message when
present". -/
theorem claim_C6_counterexample :
    (lookupField [("message", Json.str "")] "message").map jsToString =
      some "" ∧
    spokenTexts (runSession sampleState envMsgEmpty).2.1 =
      ["Please say the floor number.", "Voice input stopped.",
       "No valid floor number recognized."] ∧
    (spokenTexts (runSession sampleState envMsgEmpty).2.1).count "" = 0 := by
  decide

/-- C6 (amended): for a session whose response is a JSON object without
a truthy `floor` field, the final announcement is the server-provided
`message` when that field is present and truthy, and the generic
fallback otherwise; the display region is unchanged. -/
theorem claim_C6 (s : CtrlState) (env : SessionEnv) (st : Nat)
    (fields : List (String × Json))
    (hs : s.isListening = false) (hok : env.acquire = Except.ok ())
    (hbody : env.outcome =
      FetchOutcome.response st (Except.ok (Json.obj fields)))
    (hnofloor : truthy (lookupField fields "floor") = false) :
    (spokenTexts (runSession s env).2.1).getLast? =
      some (jsOrString (lookupField fields "message")
        "No valid floor number recognized.") ∧
    (runSession s env).1.dom.selectedFloorText = s.dom.selectedFloorText ∧
    (runSession s env).1.dom.selectedFloorAria = s.dom.selectedFloorAria := by
  rw [runSession_acquire_ok s env hs hok, hbody]
  simp [sendAudioToAPI, jsGetProp, hnofloor, spokenTexts, postStopState]

/-- C6 witness: Scenario B — the response
`{"message": "Could not understand audio"}` yields exactly the
announcement "Could not understand audio" and leaves the display
alone. -/
theorem claim_C6_witness :
    (spokenTexts (runSession sampleState
        { acquire := Except.ok (), fragments := [],
          outcome := FetchOutcome.response 200 (Except.ok
            (Json.obj [("message", Json.str "Could not understand audio")])) }).2.1).getLast? =
      some "Could not understand audio" ∧
    (runSession sampleState
        { acquire := Except.ok (), fragments := [],
          outcome := FetchOutcome.response 200 (Except.ok
            (Json.obj [("message", Json.str "Could not understand audio")])) }).1.dom.selectedFloorText =
      sampleState.dom.selectedFloorText ∧
    (runSession sampleState
        { acquire := Except.ok (), fragments := [],
          outcome := FetchOutcome.response 200 (Except.ok
            (Json.obj [("message", Json.str "Could not understand audio")])) }).1.dom.selectedFloorAria =
      sampleState.dom.selectedFloorAria :=
  claim_C6 sampleState
    { acquire := Except.ok (), fragments := [],
      outcome := FetchOutcome.response 200 (Except.ok
        (Json.obj [("message", Json.str "Could not understand audio")])) }
    200 [("message", Json.str "Could not understand audio")]
    rfl rfl rfl (by decide)

/-- C8: the selected-floor display region (text and aria label) is
unchanged for every session outcome other than successful floor
recognition — acquisition failure, request failure, unparsable body, or
no truthy floor. -/
theorem claim_C8 (s : CtrlState) (env : SessionEnv)
    (hs : s.isListening = false)
    (h : env.acquireOk = false ∨ floorRecognized env.outcome = false) :
    (runSession s env).1.dom.selectedFloorText = s.dom.selectedFloorText ∧
    (runSession s env).1.dom.selectedFloorAria = s.dom.selectedFloorAria := by
  cases ha : env.acquire with
  | error m =>
    rw [runSession_acquire_err s env m hs ha]
    exact ⟨rfl, rfl⟩
  | ok u =>
    cases u
    rcases h with h | h
    · simp [SessionEnv.acquireOk, ha] at h
    · rw [runSession_acquire_ok s env hs ha]
      rw [sendAudio_state_unchanged _ _ _ h]
      exact ⟨rfl, rfl⟩

/-- C8 witness: a failed request leaves the display untouched. -/
theorem claim_C8_witness :
    (runSession sampleState
        { sampleEnvFloor5 with
            outcome := FetchOutcome.netError "Failed to fetch" }).1.dom.selectedFloorText =
      sampleState.dom.selectedFloorText ∧
    (runSession sampleState
        { sampleEnvFloor5 with
            outcome := FetchOutcome.netError "Failed to fetch" }).1.dom.selectedFloorAria =
      sampleState.dom.selectedFloorAria :=
  claim_C8 sampleState
    { sampleEnvFloor5 with outcome := FetchOutcome.netError "Failed to fetch" }
    rfl (Or.inr rfl)

/-- C9: when the `floor` field is present but falsy (for instance the
number 0 or the empty string), the controller takes the no-floor path:
no simulated command is logged, the final announcement is the server
message or the generic fallback, and the display is unchanged. -/
theorem claim_C9 (s : CtrlState) (env : SessionEnv) (st : Nat)
    (fields : List (String × Json)) (v : Json)
    (hs : s.isListening = false) (hok : env.acquire = Except.ok ())
    (hbody : env.outcome =
      FetchOutcome.response st (Except.ok (Json.obj fields)))
    (hv : lookupField fields "floor" = some v)
    (hfalsy : truthyVal v = false) :
    ((runSession s env).2.1.filter Effect.isConsoleLog).length = 0 ∧
    (spokenTexts (runSession s env).2.1).getLast? =
      some (jsOrString (lookupField fields "message")
        "No valid floor number recognized.") ∧
    (runSession s env).1.dom.selectedFloorText = s.dom.selectedFloorText ∧
    (runSession s env).1.dom.selectedFloorAria = s.dom.selectedFloorAria := by
  have hnf : truthy (lookupField fields "floor") = false := by
    rw [hv]
    simpa [truthy] using hfalsy
  rw [runSession_acquire_ok s env hs hok, hbody]
  simp [sendAudioToAPI, jsGetProp, hnf, spokenTexts, Effect.isConsoleLog,
    postStopState]

/-- C9 witness: the response `{"floor": 0, "message": "zero"}` takes
the no-floor path and speaks "zero". -/
theorem claim_C9_witness :
    ((runSession sampleState
        { acquire := Except.ok (), fragments := [[4]],
          outcome := FetchOutcome.response 200 (Except.ok
            (Json.obj [("floor", Json.num 0), ("message", Json.str "zero")])) }).2.1.filter
      Effect.isConsoleLog).length = 0 ∧
    (spokenTexts (runSession sampleState
        { acquire := Except.ok (), fragments := [[4]],
          outcome := FetchOutcome.response 200 (Except.ok
            (Json.obj [("floor", Json.num 0), ("message", Json.str "zero")])) }).2.1).getLast? =
      some "zero" ∧
    (runSession sampleState
        { acquire := Except.ok (), fragments := [[4]],
          outcome := FetchOutcome.response 200 (Except.ok
            (Json.obj [("floor", Json.num 0), ("message", Json.str "zero")])) }).1.dom.selectedFloorText =
      sampleState.dom.selectedFloorText ∧
    (runSession sampleState
        { acquire := Except.ok (), fragments := [[4]],
          outcome := FetchOutcome.response 200 (Except.ok
            (Json.obj [("floor", Json.num 0), ("message", Json.str "zero")])) }).1.dom.selectedFloorAria =
      sampleState.dom.selectedFloorAria :=
  claim_C9 sampleState
    { acquire := Except.ok (), fragments := [[4]],
      outcome := FetchOutcome.response 200 (Except.ok
        (Json.obj [("floor", Json.num 0), ("message", Json.str "zero")])) }
    200 [("floor", Json.num 0), ("message", Json.str "zero")] (Json.num 0)
    rfl rfl rfl rfl rfl

/-- C10 counterexample: the JSON body `null` is perfectly parsable, yet
processing it reaches the error branch (reading `result.floor` throws),
so the error branch is not reached only on transport or parse
failures. -/
theorem claim_C10_counterexample :
    (sendAudioToAPI sampleState []
        (FetchOutcome.response 200 (Except.ok Json.null))).2 =
      [Effect.httpPost "POST" "http://127.0.0.1:8000/transcribe" "file"
        "audio.webm" "audio/webm" [],
       Effect.speak ("Error processing voice input: " ++
         "Cannot read properties of null (reading 'floor')")] ∧
    ((sendAudioToAPI sampleState []
        (FetchOutcome.response 200 (Except.ok Json.null))).2.filter
      Effect.isConsoleLog).length = 0 := by
  decide

/-- C10 (amended): response processing never inspects the HTTP status —
any two statuses with the same body produce identical state and
effects; at any status a JSON object body with a truthy `floor` still
triggers the floor selection (one simulated command logged), and one
without still gets its `message` (or the fallback) spoken.  The error
branch is reached on transport failure, on an unparsable body, or when
reading the floor property of the parsed body throws (JSON `null`
body). -/
theorem claim_C10 (s : CtrlState) (blob : List Nat) (st1 st2 : Nat)
    (body : Except String Json) :
    sendAudioToAPI s blob (FetchOutcome.response st1 body) =
      sendAudioToAPI s blob (FetchOutcome.response st2 body) ∧
    (∀ fields, body = Except.ok (Json.obj fields) →
      truthy (lookupField fields "floor") = true →
      ((sendAudioToAPI s blob (FetchOutcome.response st1 body)).2.filter
        Effect.isConsoleLog).length = 1) ∧
    (∀ fields, body = Except.ok (Json.obj fields) →
      truthy (lookupField fields "floor") = false →
      (sendAudioToAPI s blob (FetchOutcome.response st1 body)).2 =
        [Effect.httpPost "POST" "http://127.0.0.1:8000/transcribe" "file"
          "audio.webm" "audio/webm" blob,
         Effect.speak (jsOrString (lookupField fields "message")
           "No valid floor number recognized.")]) := by
  refine ⟨rfl, ?_, ?_⟩
  · intro fields hb ht
    subst hb
    cases hf : lookupField fields "floor" with
    | none =>
      rw [hf] at ht
      simp [truthy] at ht
    | some fl =>
      rw [hf] at ht
      simp [sendAudioToAPI, jsGetProp, hf, ht, selectFloor, Effect.isConsoleLog]
  · intro fields hb hnf
    subst hb
    simp [sendAudioToAPI, jsGetProp, hnf]

/-- C10 witness: at status 404 a truthy floor still triggers the
simulated command. -/
theorem claim_C10_witness :
    ((sendAudioToAPI sampleState []
        (FetchOutcome.response 404
          (Except.ok (Json.obj [("floor", Json.str "5")])))).2.filter
      Effect.isConsoleLog).length = 1 :=
  (claim_C10 sampleState [] 404 500
      (Except.ok (Json.obj [("floor", Json.str "5")]))).2.1
    [("floor", Json.str "5")] rfl (by decide)
